import Mathlib

/-!
Verification of the Swasthiq AI Scribe pipeline (`scribe_mvp.py`).

Python strings are modelled as lists of characters (`PyStr`); the string
operations the pipeline uses (`str.lower`, `str.strip`, `str.split`, the
`in` substring test, `int()` parsing, truthiness of optional environment
values) are embedded as executable Lean functions, restricted to the ASCII
behaviour the pipeline exercises.  External collaborators — the Sarvam
transcription SDK, the OpenAI chat call, the Twilio client and the SMTP
server — are modelled as oracle outcomes; every branch the Python code
takes on those outcomes is reproduced, including the exact user-facing
message strings the code builds from them.
-/

/-- Python strings, modelled as lists of characters. -/
abbrev PyStr := List Char

/-- Whitespace characters recognised by Python `str.strip()` / `str.split()`
(restricted to the ASCII whitespace set). -/
def isSpace (c : Char) : Bool :=
  c == ' ' || c == '\t' || c == '\n' || c == '\r' || c == '\x0b' || c == '\x0c'

/-- Python `str.lower()` on one character, for the ASCII range the pipeline
exercises (keywords, template text and provider messages are ASCII): the
uppercase letters `A`–`Z` (codes 65–90) map 32 codes up, everything else is
unchanged. -/
def pyLowerChar (c : Char) : Char :=
  if 65 ≤ c.toNat ∧ c.toNat ≤ 90 then Char.ofNat (c.toNat + 32) else c

/-- Python `str.lower()`. -/
def pyLower (s : PyStr) : PyStr := s.map pyLowerChar

/-- Python `str.strip()`: drop leading and trailing whitespace. -/
def pyStrip (s : PyStr) : PyStr :=
  ((s.dropWhile isSpace).reverse.dropWhile isSpace).reverse

/-- Helper for `pySplitWs`: accumulate the current word (reversed). -/
def wordsAux (cur : PyStr) : PyStr → List PyStr
  | [] => if cur.isEmpty then [] else [cur.reverse]
  | c :: cs =>
    if isSpace c then
      if cur.isEmpty then wordsAux [] cs else cur.reverse :: wordsAux [] cs
    else wordsAux (c :: cur) cs

/-- Python `str.split()` with no argument: split on runs of whitespace and
discard empty pieces. -/
def pySplitWs (s : PyStr) : List PyStr := wordsAux [] s

/-- Boolean test that `needle` is an initial segment of `hay`. -/
def leadsWith : PyStr → PyStr → Bool
  | [], _ => true
  | _ :: _, [] => false
  | a :: as, b :: bs => a == b && leadsWith as bs

/-- Python `needle in hay` on strings: contiguous substring containment. -/
def containsSub (needle : PyStr) : PyStr → Bool
  | [] => leadsWith needle []
  | b :: bs => leadsWith needle (b :: bs) || containsSub needle bs

/-- Python truthiness of an optional environment-variable value: an unset
variable and the empty string are falsy. -/
def truthy : Option PyStr → Bool
  | none => false
  | some s => !s.isEmpty

/-- Numeric value of a nonempty all-digit string. -/
def digitsVal : PyStr → Option Nat
  | [] => none
  | [c] => if c.isDigit then some (c.toNat - 48) else none
  | c :: cs =>
    if c.isDigit then
      match digitsVal cs with
      | some n => some ((c.toNat - 48) * 10 ^ cs.length + n)
      | none => none
    else none

/-- Python `int(s)`: optional surrounding whitespace, optional sign, then a
nonempty digit string; anything else raises `ValueError` (modelled as
`none`). -/
def pyParseInt (s : PyStr) : Option Int :=
  let t := pyStrip s
  match t with
  | '+' :: r => (digitsVal r).map (fun n => (n : Int))
  | '-' :: r => (digitsVal r).map (fun n => -(n : Int))
  | r => (digitsVal r).map (fun n => (n : Int))

/-! ## Relevance Gate (`generate_soap_note_openai`, lines 150–157) -/

/-- The fixed clinical-keyword set of the Relevance Gate. -/
def clinicalMarkers : List PyStr :=
  ["pain".toList, "fever".toList, "mg".toList, "diagnos".toList,
   "prescribe".toList, "consult".toList, "patient".toList, "doctor".toList,
   "treatment".toList]

/-- Line 150: `normalized_transcript = transcript.lower().strip()`. -/
def normalizedTranscript (t : PyStr) : PyStr := pyStrip (pyLower t)

/-- Line 151: `word_count = len(normalized_transcript.split())`. -/
def word_count (t : PyStr) : Nat := (pySplitWs (normalizedTranscript t)).length

/-- Lines 154–155: `is_trivial = word_count < 10 and not any(marker in
normalized_transcript for marker in [...])`. -/
def is_trivial (t : PyStr) : Bool :=
  decide (word_count t < 10) &&
    !(clinicalMarkers.any fun m => containsSub m (normalizedTranscript t))

/-- Line 157 guard: `if is_trivial or not normalized_transcript`. -/
def takesTrivialPath (t : PyStr) : Bool :=
  is_trivial t || (normalizedTranscript t).isEmpty

/-! ## Note Synthesizer (`generate_soap_note_openai`) -/

/-- Outcome of the OpenAI chat-completion call (line 189): the model answers
with some text, or the call raises an exception with some message. -/
inductive LLMOutcome where
  | ok (note : PyStr)
  | raise (msg : PyStr)
deriving DecidableEq

/-- Line 147: message returned when the module-level OpenAI client is `None`. -/
def clientInitFailedMsg : PyStr :=
  "AI Generation Error: OpenAI client failed to initialize. Check API key.".toList

/-- Lines 160–165: the hardcoded empty note returned on the trivial path. -/
def trivialNote : PyStr :=
  ("S: None (Trivial/Non-clinical audio. No patient conversation detected).\n" ++
   "O: None found in conversation.\n" ++
   "A: None found in conversation.\n" ++
   "P: None found in conversation.").toList

/-- Result of `generate_soap_note_openai`: the returned string, plus whether
the external chat-completion call was made. -/
structure SynthResult where
  output : PyStr
  calledLLM : Bool
deriving DecidableEq

/-- Embedding of `generate_soap_note_openai` (lines 141–200): `clientOk` is
whether the module-level `OpenAI()` construction succeeded (line 19–23),
`llm` is the outcome of the chat-completion call on the substantive path. -/
def generate_soap_note_openai (clientOk : Bool) (llm : LLMOutcome)
    (transcript : PyStr) : SynthResult :=
  if !clientOk then ⟨clientInitFailedMsg, false⟩
  else if takesTrivialPath transcript then ⟨trivialNote, false⟩
  else
    match llm with
    | .ok note => ⟨note, true⟩
    | .raise m => ⟨"AI Generation Error: ".toList ++ m, true⟩

/-! ## Transcription Provider (`transcribe_audio_sarvam_api`) -/

/-- Outcome of saving the in-memory audio to a named temporary file
(lines 55–60).  `NamedTemporaryFile(delete=False)` creates the file on
entry; a failure during `write` therefore leaves the file on disk, while a
failure during creation itself leaves nothing. -/
inductive WriteOutcome where
  | ok
  | raiseAfterCreate (msg : PyStr)
  | raiseBeforeCreate (msg : PyStr)
deriving DecidableEq

/-- Outcome of the Sarvam job phase (lines 65–107): the job reports FAILED;
the job completes and a transcript file is found; the job completes but no
`.txt`/`.json` file is in the output; or the SDK raises at some point
(`dirCreated` records whether `download_outputs` had already created the
output directory when it raised). -/
inductive JobOutcome where
  | jobFailed (jobId : PyStr)
  | outputFound (transcript : PyStr)
  | outputMissing
  | sdkRaise (dirCreated : Bool) (msg : PyStr)
deriving DecidableEq

/-- Environment and provider behaviour for one transcription call. -/
structure TranscribeEnv where
  sarvamKeySet : Bool
  writeOutcome : WriteOutcome
  jobOutcome : JobOutcome
deriving DecidableEq

/-- The temporary storage the call may create: the named temporary audio
file and the downloaded-output directory. -/
structure FsState where
  tmpAudioFileExists : Bool
  outputDirExists : Bool
deriving DecidableEq

/-- Line 52 message. -/
def missingKeyMsg : PyStr :=
  "Transcription API Error: SARVAM_AI_API_KEY not found in environment secrets.".toList

/-- Line 60 message. -/
def fsErrorMsg (details : PyStr) : PyStr :=
  "File System Error: Could not save temporary audio file. Details: ".toList ++ details

/-- Line 85 message.  Note: it does not contain the substring `Error`. -/
def jobFailedMsg (jobId : PyStr) : PyStr :=
  "Sarvam Job Failed: Status was FAILED. Check Sarvam logs for job ".toList ++
    jobId ++ ".".toList

/-- Line 104 message. -/
def outputMissingMsg : PyStr :=
  "Sarvam Output Error: Transcript file not found in downloaded output.".toList

/-- Line 107 message. -/
def sdkErrorMsg (details : PyStr) : PyStr :=
  ("Sarvam SDK Execution Error: An unexpected error occurred during job " ++
   "processing. Details: ").toList ++ details

/-- The temporary storage present when control reaches the `finally` block
(line 109), per job outcome: the audio file always exists there, and the
output directory exists exactly when `download_outputs` ran. -/
def fsAtFinally : JobOutcome → FsState
  | .jobFailed _ => ⟨true, false⟩
  | .outputFound _ => ⟨true, true⟩
  | .outputMissing => ⟨true, true⟩
  | .sdkRaise dirCreated _ => ⟨true, dirCreated⟩

/-- Lines 109–115: unlink the audio file if it exists, remove the output
directory if it exists. -/
def cleanupFinally (fs : FsState) : FsState :=
  { tmpAudioFileExists := if fs.tmpAudioFileExists then false else fs.tmpAudioFileExists
    outputDirExists := if fs.outputDirExists then false else fs.outputDirExists }

/-- Result of one transcription call: the returned string and the temporary
storage left behind after the call. -/
structure TranscribeResult where
  result : PyStr
  fs : FsState
deriving DecidableEq

/-- Embedding of `transcribe_audio_sarvam_api` (lines 45–115).  The polling
loop at lines 117–138 is unreachable (every path of the preceding
`try`/`except` returns), so it is not modelled.  All paths return a string;
no exception escapes the function. -/
def transcribe_audio_sarvam_api (env : TranscribeEnv) : TranscribeResult :=
  if !env.sarvamKeySet then ⟨missingKeyMsg, ⟨false, false⟩⟩
  else
    match env.writeOutcome with
    | .raiseBeforeCreate m => ⟨fsErrorMsg m, ⟨false, false⟩⟩
    | .raiseAfterCreate m => ⟨fsErrorMsg m, ⟨true, false⟩⟩
    | .ok =>
      let res :=
        match env.jobOutcome with
        | .jobFailed id => jobFailedMsg id
        | .outputFound t => t
        | .outputMissing => outputMissingMsg
        | .sdkRaise _ m => sdkErrorMsg m
      ⟨res, cleanupFinally (fsAtFinally env.jobOutcome)⟩

/-! ## Delivery functions -/

/-- Outcome of the Twilio `messages.create` call (line 215). -/
inductive TwilioOutcome where
  | ok
  | raise (msg : PyStr)
deriving DecidableEq

/-- Twilio environment variables (lines 205–207). -/
structure TwilioEnv where
  accountSid : Option PyStr
  authToken : Option PyStr
  fromNumber : Option PyStr
deriving DecidableEq

/-- Embedding of `send_whatsapp_note` (lines 203–218).  Every path returns a
string. -/
def send_whatsapp_note (env : TwilioEnv) (out : TwilioOutcome)
    (content recipient : PyStr) : PyStr :=
  if !(truthy env.accountSid && truthy env.authToken && truthy env.fromNumber) then
    "WhatsApp Failed: Twilio credentials not set up.".toList
  else
    match out with
    | .ok => "Success! Note sent via WhatsApp to ".toList ++ recipient ++ ".".toList
    | .raise m =>
      "WhatsApp API Failed: ".toList ++ m ++
        ". Check number format and Sandbox linkage.".toList

/-- Outcome of the SMTP session (lines 236–239). -/
inductive SmtpOutcome where
  | ok
  | raise (msg : PyStr)
deriving DecidableEq

/-- SMTP environment variables (lines 222–225). -/
structure EmailEnv where
  smtpServer : Option PyStr
  smtpPort : Option PyStr
  senderEmail : Option PyStr
  senderPassword : Option PyStr
deriving DecidableEq

/-- Embedding of `send_email_note` (lines 220–242).  Line 223 evaluates
`int(os.environ.get('SMTP_PORT', 587))` outside every `try` block, so a set
but non-numeric `SMTP_PORT` raises an uncaught `ValueError`, modelled as
`Except.error`; every other path returns a string. -/
def send_email_note (env : EmailEnv) (out : SmtpOutcome)
    (content recipient : PyStr) : Except PyStr PyStr :=
  match pyParseInt (env.smtpPort.getD "587".toList) with
  | none =>
    .error ("ValueError: invalid literal for int() with base 10: ".toList ++
      env.smtpPort.getD "587".toList)
  | some _port =>
    if !(truthy env.smtpServer && truthy env.senderEmail && truthy env.senderPassword) then
      .ok "Email Failed: SMTP credentials not set up.".toList
    else
      match out with
      | .ok => .ok ("Success! Note sent via Email to ".toList ++ recipient ++ ".".toList)
      | .raise m =>
        .ok ("Email SMTP Failed: ".toList ++ m ++
          ". Check SMTP credentials (App Password).".toList)

/-! ## Session Stage Machine (`__main__`, lines 247–413)

The Streamlit script runs top to bottom on every rerun.  One `script_run`
models one such run: the always-executed input widgets, then the single
stage block that can act (audio capture at stage 0, processing at stage 2,
review at stage 3), then the footer reset button.  `st.stop()` and
`st.rerun()` end the run; widget values and button clicks are the run's
inputs, provider behaviour its oracles. -/

/-- Streamlit session state, as set up by `initialize_session_state`
(lines 28–41) and mutated by the script. -/
structure Session where
  current_stage : Nat
  doctor_name : PyStr
  delivery_target : PyStr
  contact_input : PyStr
  raw_transcript : PyStr
  soap_note : PyStr
  audio_bytes : Option (List Nat)
  input_mode : PyStr
deriving DecidableEq

/-- The defaults set by `initialize_session_state` (lines 34–41); also the
state after the footer `Reset Application` button clears the session. -/
def initSession : Session :=
  { current_stage := 0
    doctor_name := "Dr. A. Sharma".toList
    delivery_target := "Email".toList
    contact_input := "dr.a.sharma@clinic.com".toList
    raw_transcript := []
    soap_note := []
    audio_bytes := none
    input_mode := "Live Recording".toList }

/-- Provider behaviour for one script run. -/
structure Oracles where
  transcribeEnv : TranscribeEnv
  clientOk : Bool
  llm : LLMOutcome
  twilioEnv : TwilioEnv
  twilioOutcome : TwilioOutcome
  emailEnv : EmailEnv
  smtpOutcome : SmtpOutcome
  now : PyStr
deriving DecidableEq

/-- User-controlled inputs of one script run: the widget values (lines
263–313) and the three buttons (process, finalize-and-send, reset) plus the
content of the editable note text area (line 378). -/
structure RunInputs where
  nameInput : PyStr
  inputMode : PyStr
  deliveryTarget : PyStr
  contactInput : PyStr
  audioData : Option (List Nat)
  processClicked : Bool
  finalizeClicked : Bool
  finalNoteEdit : PyStr
  resetClicked : Bool
deriving DecidableEq

/-- Observable trace of one script run: the resulting session state, the
`st.error` and `st.success` messages shown, which external calls were made,
and an exception that escaped the script (only the `int(SMTP_PORT)`
`ValueError` can). -/
structure BlockTrace where
  session : Session
  reports : List PyStr
  successes : List PyStr
  transcribeCalled : Bool
  synthCalled : Bool
  llmCalled : Bool
  deliveryCalled : Bool
  uncaughtExn : Option PyStr
deriving DecidableEq

/-- A run segment that only carries the session forward. -/
def idleTrace (s : Session) : BlockTrace :=
  ⟨s, [], [], false, false, false, false, none⟩

/-- Lines 340, 351: failure detection by substring sniffing. -/
def hasErrorSubstr (s : PyStr) : Bool := containsSub "Error".toList s

/-- Line 401: success detection by substring sniffing. -/
def hasSuccessSubstr (s : PyStr) : Bool := containsSub "Success!".toList s

/-- The PROCESSING block (lines 328–359).  Every active path ends in
`st.stop()` or `st.rerun()`, so nothing after it runs in the same script
run. -/
def processing_block (o : Oracles) (s : Session) : BlockTrace :=
  if s.current_stage ≠ 2 then idleTrace s
  else
    match s.audio_bytes with
    | none =>
      { idleTrace { s with current_stage := 0 } with
        reports := ["No audio data found. Please record live or upload a file.".toList] }
    | some _ =>
      let raw := (transcribe_audio_sarvam_api o.transcribeEnv).result
      if hasErrorSubstr raw then
        { idleTrace { s with current_stage := 0 } with
          reports := [raw], transcribeCalled := true }
      else
        let synth := generate_soap_note_openai o.clientOk o.llm raw
        let s2 := { s with raw_transcript := raw, soap_note := synth.output }
        if hasErrorSubstr synth.output then
          { idleTrace { s2 with current_stage := 0 } with
            reports := [synth.output], transcribeCalled := true,
            synthCalled := true, llmCalled := synth.calledLLM }
        else
          { idleTrace { s2 with current_stage := 3 } with
            transcribeCalled := true, synthCalled := true,
            llmCalled := synth.calledLLM }

/-- Lines 388–392: the message body assembled at finalize time. -/
def buildMessage (doctor now finalNote : PyStr) : PyStr :=
  "Doctor: ".toList ++ doctor ++ "\nDate: ".toList ++ now ++
    "\n\n--- FINAL SOAP NOTE ---\n\n".toList ++ finalNote

/-- Lines 396–399: dispatch on the delivery target.  The email sender can
raise (malformed `SMTP_PORT`); the WhatsApp sender always returns. -/
def deliveryStatus (o : Oracles) (content : PyStr) (s : Session) :
    Except PyStr PyStr :=
  if s.delivery_target = "WhatsApp".toList then
    .ok (send_whatsapp_note o.twilioEnv o.twilioOutcome content s.contact_input)
  else
    send_email_note o.emailEnv o.smtpOutcome content s.contact_input

/-- The REVIEW block (lines 366–407). -/
def review_block (o : Oracles) (finalizeClicked : Bool) (finalNoteEdit : PyStr)
    (s : Session) : BlockTrace :=
  if s.current_stage ≠ 3 then idleTrace s
  else if !finalizeClicked then idleTrace s
  else
    let msg := buildMessage s.doctor_name o.now finalNoteEdit
    match deliveryStatus o msg s with
    | .error e => { idleTrace s with deliveryCalled := true, uncaughtExn := some e }
    | .ok status =>
      if hasSuccessSubstr status then
        { idleTrace { s with current_stage := 0, audio_bytes := none } with
          successes := [status], deliveryCalled := true }
      else
        { idleTrace s with reports := [status], deliveryCalled := true }

/-- The always-run widget assignments (lines 264–294, 299–313). -/
def widget_update (i : RunInputs) (s : Session) : Session :=
  { s with doctor_name := i.nameInput, input_mode := i.inputMode,
           delivery_target := i.deliveryTarget, contact_input := i.contactInput }

/-- One full top-to-bottom run of the script.  The audio-capture block
(lines 316–322) stores the widget's audio bytes whenever audio is present at
stage 0; the `PROCESS` button then sets stage 2 and reruns.  The footer
reset (lines 411–413) clears the whole session; the next run's
`initialize_session_state` restores `initSession`. -/
def script_run (o : Oracles) (i : RunInputs) (s : Session) : BlockTrace :=
  let s1 := widget_update i s
  if i.audioData.isSome ∧ s1.current_stage = 0 then
    let s2 := { s1 with audio_bytes := i.audioData }
    if i.processClicked then idleTrace { s2 with current_stage := 2 }
    else if i.resetClicked then idleTrace initSession
    else idleTrace s2
  else if s1.current_stage = 2 then processing_block o s1
  else if s1.current_stage = 3 then
    let t := review_block o i.finalizeClicked i.finalNoteEdit s1
    if t.uncaughtExn.isSome then t
    else if i.resetClicked then { t with session := initSession }
    else t
  else if i.resetClicked then idleTrace initSession
  else idleTrace s1

/-- Sessions reachable from the freshly initialized state through script
runs with arbitrary user inputs and provider behaviour. -/
inductive Reachable : Session → Prop where
  | init : Reachable initSession
  | step (o : Oracles) (i : RunInputs) {s : Session} :
      Reachable s → Reachable (script_run o i s).session

/-- Default run inputs: the widget defaults, no audio, no button clicks. -/
def defaultInputs : RunInputs :=
  { nameInput := "Dr. A. Sharma".toList
    inputMode := "Live Recording".toList
    deliveryTarget := "Email".toList
    contactInput := "dr.a.sharma@clinic.com".toList
    audioData := none
    processClicked := false
    finalizeClicked := false
    finalNoteEdit := []
    resetClicked := false }

/-- Run inputs that record an audio blob and press the process button. -/
def captureInputs (audio : List Nat) : RunInputs :=
  { defaultInputs with audioData := some audio, processClicked := true }

/-- An oracle under which the Sarvam transcription job fails (job id "123"),
while the OpenAI call would answer with a well-formed clinical note. -/
def oracleJobFailed : Oracles :=
  { transcribeEnv :=
      { sarvamKeySet := true, writeOutcome := .ok,
        jobOutcome := .jobFailed "123".toList }
    clientOk := true
    llm := .ok ("S: chest discomfort reported.\n" ++
      "O: None found in conversation.\n" ++
      "A: None found in conversation.\n" ++
      "P: None found in conversation.").toList
    twilioEnv := ⟨none, none, none⟩
    twilioOutcome := .ok
    emailEnv := ⟨none, none, none, none⟩
    smtpOutcome := .ok
    now := [] }

/-- A session sitting at the start of PROCESSING with captured audio. -/
def processingSession : Session :=
  { initSession with current_stage := 2, audio_bytes := some [1, 2, 3] }

/-- A reachable session holding the evaded "Sarvam Job Failed" string as its
transcript at REVIEW: capture audio and press process, then run PROCESSING
under the failing-job oracle. -/
def reviewWithFailureTranscript : Session :=
  (script_run oracleJobFailed defaultInputs
    (script_run oracleJobFailed (captureInputs [1, 2, 3]) initSession).session).session

/-- A reachable REVIEW session produced by a fully successful processing
pass: transcription succeeds with a clinical transcript, the gate judges it
substantive, and the model answers with a well-formed note. -/
def reviewAfterSuccess : Session :=
  (script_run
    { oracleJobFailed with
      transcribeEnv :=
        { sarvamKeySet := true, writeOutcome := .ok,
          jobOutcome := .outputFound
            "patient has fever and took 650 mg paracetamol".toList } }
    defaultInputs
    (script_run oracleJobFailed (captureInputs [1, 2, 3]) initSession).session).session

/-- An oracle under which email delivery genuinely succeeds: SMTP
credentials present, default port, SMTP session completes. -/
def oracleEmailOk : Oracles :=
  { oracleJobFailed with
    emailEnv :=
      { smtpServer := some "smtp.clinic.example".toList
        smtpPort := none
        senderEmail := some "scribe@clinic.example".toList
        senderPassword := some "app-password".toList }
    smtpOutcome := .ok }

/-- A session sitting in REVIEW after a successful pass, with nonempty
transcript and note and the audio still stored. -/
def reviewSession : Session :=
  { initSession with
    current_stage := 3
    audio_bytes := some [1, 2, 3]
    raw_transcript := "patient reports pain".toList
    soap_note := ("S: pain reported.\nO: None found in conversation.\n" ++
      "A: None found in conversation.\nP: None found in conversation.").toList }

/-- An oracle with the Sarvam API key unset: transcription fails at once
with the missing-credentials message. -/
def oracleNoKey : Oracles :=
  { oracleJobFailed with
    transcribeEnv :=
      { sarvamKeySet := false, writeOutcome := .ok, jobOutcome := .outputMissing } }

/-- A PROCESSING session carrying leftover artifacts from an earlier pass
(nothing resets them), to make retention observable. -/
def processingSessionWithHistory : Session :=
  { initSession with
    current_stage := 2
    audio_bytes := some [9, 9, 9]
    raw_transcript := "previous transcript".toList
    soap_note := "previous note".toList }

/-- An oracle whose Twilio call raises with an exception whose text happens
to contain "Success!": the delivery call fails, but the formatted failure
string "WhatsApp API Failed: Success!..." passes the line-401 substring
check. -/
def oracleTwilioRaiseSuccessText : Oracles :=
  { oracleJobFailed with
    twilioEnv :=
      { accountSid := some "AC123".toList
        authToken := some "token".toList
        fromNumber := some "+14155238886".toList }
    twilioOutcome := .raise "Success! reported by upstream gateway before the send actually failed".toList }

/-- The review session delivering over WhatsApp. -/
def reviewSessionWhatsApp : Session :=
  { reviewSession with
    delivery_target := "WhatsApp".toList
    contact_input := "+919876543210".toList }

/-! ## Helper lemmas -/

theorem isSpace_ofNat_letter {n : Nat} (h1 : 97 ≤ n) (h2 : n ≤ 122) :
    isSpace (Char.ofNat n) = false := by
  interval_cases n <;> decide

theorem isSpace_of_upper {c : Char} (h1 : 65 ≤ c.toNat) (h2 : c.toNat ≤ 90) :
    isSpace c = false := by
  simp only [isSpace, Bool.or_eq_false_iff, beq_eq_false_iff_ne]
  refine ⟨⟨⟨⟨⟨?_, ?_⟩, ?_⟩, ?_⟩, ?_⟩, ?_⟩ <;>
    (rintro rfl; revert h1 h2; decide)

theorem isSpace_pyLowerChar (c : Char) : isSpace (pyLowerChar c) = isSpace c := by
  unfold pyLowerChar
  split
  · rename_i h
    rw [isSpace_ofNat_letter (by omega) (by omega), isSpace_of_upper h.1 h.2]
  · rfl

theorem pyStrip_eq_nil_iff (s : PyStr) :
    pyStrip s = [] ↔ ∀ c ∈ s, isSpace c = true := by
  unfold pyStrip
  rw [List.reverse_eq_nil_iff, List.dropWhile_eq_nil_iff]
  constructor
  · intro h c hc
    rcases List.mem_append.mp
        ((List.takeWhile_append_dropWhile (p := isSpace) (l := s)) ▸ hc) with h1 | h1
    · exact List.mem_takeWhile_imp h1
    · exact h c (List.mem_reverse.mpr h1)
  · intro h c hc
    exact h c ((List.dropWhile_sublist (p := isSpace)).subset (List.mem_reverse.mp hc))

theorem normalizedTranscript_eq_nil_iff (t : PyStr) :
    normalizedTranscript t = [] ↔ t.all isSpace = true := by
  unfold normalizedTranscript pyLower
  rw [pyStrip_eq_nil_iff, List.all_eq_true]
  constructor
  · intro h c hc
    have := h (pyLowerChar c) (List.mem_map_of_mem pyLowerChar hc)
    rwa [isSpace_pyLowerChar] at this
  · intro h c hc
    rcases List.mem_map.mp hc with ⟨d, hd, rfl⟩
    rw [isSpace_pyLowerChar]
    exact h d hd

theorem markers_not_in_nil :
    ∀ m ∈ clinicalMarkers, containsSub m [] = false := by decide

/-! ## Claims -/

/-- C1: the Relevance Gate judges a transcript TRIVIAL iff it is empty or
whitespace-only, or its whitespace-split word count after lowercasing and
trimming is below 10 and none of the nine clinical keywords occurs as a
substring of the normalized text; in particular any transcript containing a
keyword substring is judged NOT-TRIVIAL regardless of word count. -/
theorem relevance_gate_characterization :
    (∀ t : PyStr,
      takesTrivialPath t = true ↔
        t.all isSpace = true ∨
          (word_count t < 10 ∧
            ∀ m ∈ clinicalMarkers, containsSub m (normalizedTranscript t) = false)) ∧
    (∀ t : PyStr,
      (∃ m ∈ clinicalMarkers, containsSub m (normalizedTranscript t) = true) →
        takesTrivialPath t = false) := by
  have htriv : ∀ t : PyStr, is_trivial t = true ↔
      word_count t < 10 ∧
        ∀ m ∈ clinicalMarkers, containsSub m (normalizedTranscript t) = false := by
    intro t
    simp [is_trivial, List.any_eq_true]
  constructor
  · intro t
    constructor
    · intro h
      rcases Bool.or_eq_true_iff.mp h with h1 | h2
      · exact Or.inr ((htriv t).mp h1)
      · exact Or.inl ((normalizedTranscript_eq_nil_iff t).mp
          (List.isEmpty_iff.mp h2))
    · intro h
      rcases h with hws | hcond
      · have hN := (normalizedTranscript_eq_nil_iff t).mpr hws
        unfold takesTrivialPath
        rw [hN]
        simp
      · unfold takesTrivialPath
        rw [(htriv t).mpr hcond]
        simp
  · rintro t ⟨m, hm, hc⟩
    have hN : normalizedTranscript t ≠ [] := by
      intro hnil
      rw [hnil] at hc
      rw [markers_not_in_nil m hm] at hc
      exact Bool.false_ne_true hc
    unfold takesTrivialPath
    have h1 : is_trivial t = false := by
      unfold is_trivial
      have : clinicalMarkers.any (fun x => containsSub x (normalizedTranscript t)) = true :=
        List.any_eq_true.mpr ⟨m, hm, hc⟩
      rw [this]
      simp
    rw [h1]
    simp [List.isEmpty_iff, hN]

/-- Witness for C1: "the patient is here" has fewer than 10 words but
contains the keyword "patient", so the gate judges it NOT-TRIVIAL. -/
theorem relevance_gate_characterization_witness :
    takesTrivialPath "the patient is here".toList = false :=
  relevance_gate_characterization.2 "the patient is here".toList
    ⟨"patient".toList, by decide, by decide⟩

/-- Counterexample to C2 as stated: when the module-level `OpenAI()`
construction failed (line 19–23, e.g. the API key is missing), the client
check at line 146 precedes the Relevance Gate, so even the empty — hence
TRIVIAL — transcript yields the initialization error string instead of the
fixed template: the trivial path is not free of failure possibilities. -/
theorem trivial_synth_without_client_counterexample :
    takesTrivialPath ([] : PyStr) = true ∧
      (generate_soap_note_openai false (.ok []) []).output ≠ trivialNote := by
  exact ⟨by decide, by decide⟩

/-- C2 (amended): provided the OpenAI client initialized successfully, every
transcript judged TRIVIAL by the gate yields exactly the fixed four-section
S/O/A/P template with no external model call; the result does not depend on
the model oracle at all, so repeated calls are byte-identical. -/
theorem trivial_synth_fixed_template (llm : LLMOutcome) (t : PyStr)
    (h : takesTrivialPath t = true) :
    generate_soap_note_openai true llm t = ⟨trivialNote, false⟩ := by
  unfold generate_soap_note_openai
  simp [h]

/-- Witness for the amended C2 at the transcript "hello hello". -/
theorem trivial_synth_fixed_template_witness :
    generate_soap_note_openai true (.ok []) "hello hello".toList
      = ⟨trivialNote, false⟩ :=
  trivial_synth_fixed_template (.ok []) "hello hello".toList (by decide)

/-- C3 (code-bug evidence): a transcription-job failure returns the string
"Sarvam Job Failed: Status was FAILED. ..." which does not contain the
substring "Error", so the detection at line 340 (`if "Error" in
raw_transcript`) misses it.  PROCESSING then stores the failure string as
the transcript, invokes the Relevance Gate and Note Synthesizer on the
failure value, reports nothing, and advances to REVIEW instead of returning
to SETUP. -/
theorem processing_job_failure_evades_error_check :
    (processing_block oracleJobFailed processingSession).synthCalled = true ∧
      (processing_block oracleJobFailed processingSession).session.current_stage = 3 ∧
      (processing_block oracleJobFailed processingSession).session.raw_transcript
        = jobFailedMsg "123".toList ∧
      (processing_block oracleJobFailed processingSession).reports = [] := by
  exact ⟨by decide, by decide, by decide, by decide⟩

/-- Counterexample to C4 as stated: the machine does reach REVIEW
(stage 3) with a provider failure string — the "Sarvam Job Failed" message,
which lacks the substring "Error" — stored as the transcript. -/
theorem review_with_failure_transcript_reachable :
    Reachable reviewWithFailureTranscript ∧
      reviewWithFailureTranscript.current_stage = 3 ∧
      reviewWithFailureTranscript.raw_transcript = jobFailedMsg "123".toList :=
  ⟨Reachable.step oracleJobFailed defaultInputs
      (Reachable.step oracleJobFailed (captureInputs [1, 2, 3]) Reachable.init),
    by decide, by decide⟩

theorem widget_update_stage (i : RunInputs) (s : Session) :
    (widget_update i s).current_stage = s.current_stage := rfl

theorem widget_update_transcript (i : RunInputs) (s : Session) :
    (widget_update i s).raw_transcript = s.raw_transcript := rfl

theorem widget_update_note (i : RunInputs) (s : Session) :
    (widget_update i s).soap_note = s.soap_note := rfl

theorem processing_block_review_clean (o : Oracles) (s : Session)
    (h2 : s.current_stage = 2)
    (h3 : (processing_block o s).session.current_stage = 3) :
    hasErrorSubstr (processing_block o s).session.raw_transcript = false ∧
      hasErrorSubstr (processing_block o s).session.soap_note = false := by
  unfold processing_block at h3 ⊢
  rw [if_neg (by simp [h2])] at h3 ⊢
  rcases ha : s.audio_bytes with _ | bytes
  · simp only [ha] at h3
    exact absurd (show (0 : Nat) = 3 from h3) (by decide)
  · simp only [ha] at h3 ⊢
    by_cases hr : hasErrorSubstr (transcribe_audio_sarvam_api o.transcribeEnv).result = true
    · rw [if_pos hr] at h3
      exact absurd (show (0 : Nat) = 3 from h3) (by decide)
    · rw [if_neg hr] at h3 ⊢
      by_cases hn : hasErrorSubstr (generate_soap_note_openai o.clientOk o.llm
          (transcribe_audio_sarvam_api o.transcribeEnv).result).output = true
      · rw [if_pos hn] at h3
        exact absurd (show (0 : Nat) = 3 from h3) (by decide)
      · rw [if_neg hn]
        exact ⟨Bool.not_eq_true _ ▸ hr, Bool.not_eq_true _ ▸ hn⟩

theorem review_block_preserves (o : Oracles) (f : Bool) (n : PyStr) (s : Session) :
    (review_block o f n s).session.raw_transcript = s.raw_transcript ∧
      (review_block o f n s).session.soap_note = s.soap_note := by
  unfold review_block
  by_cases h1 : s.current_stage ≠ 3
  · rw [if_pos h1]
    exact ⟨rfl, rfl⟩
  · rw [if_neg h1]
    by_cases hf : (!f) = true
    · rw [if_pos hf]
      exact ⟨rfl, rfl⟩
    · rw [if_neg hf]
      rcases hd : deliveryStatus o (buildMessage s.doctor_name o.now n) s with e | status
      · simp only [hd]
        exact ⟨rfl, rfl⟩
      · simp only [hd]
        by_cases hs : hasSuccessSubstr status = true
        · rw [if_pos hs]
          exact ⟨rfl, rfl⟩
        · rw [if_neg hs]
          exact ⟨rfl, rfl⟩

theorem script_run_review_cases (o : Oracles) (i : RunInputs) (s : Session)
    (h3 : (script_run o i s).session.current_stage = 3) :
    ((script_run o i s).session.raw_transcript = s.raw_transcript ∧
      (script_run o i s).session.soap_note = s.soap_note ∧
      s.current_stage = 3) ∨
    (hasErrorSubstr (script_run o i s).session.raw_transcript = false ∧
      hasErrorSubstr (script_run o i s).session.soap_note = false) := by
  unfold script_run at h3 ⊢
  by_cases hcap : i.audioData.isSome = true ∧ (widget_update i s).current_stage = 0
  · rw [if_pos hcap] at h3 ⊢
    by_cases hpc : i.processClicked = true
    · rw [if_pos hpc] at h3
      exact absurd (show (2 : Nat) = 3 from h3) (by decide)
    · rw [if_neg hpc] at h3 ⊢
      by_cases hrc : i.resetClicked = true
      · rw [if_pos hrc] at h3
        exact absurd (show (0 : Nat) = 3 from h3) (by decide)
      · rw [if_neg hrc] at h3
        have h3' : s.current_stage = 3 := h3
        have h0 : s.current_stage = 0 := hcap.2
        omega
  · rw [if_neg hcap] at h3 ⊢
    by_cases hst2 : (widget_update i s).current_stage = 2
    · rw [if_pos hst2] at h3 ⊢
      exact Or.inr (processing_block_review_clean o (widget_update i s) hst2 h3)
    · rw [if_neg hst2] at h3 ⊢
      by_cases hst3 : (widget_update i s).current_stage = 3
      · rw [if_pos hst3] at h3 ⊢
        have hs3 : s.current_stage = 3 := hst3
        obtain ⟨hp1, hp2⟩ := review_block_preserves o i.finalizeClicked
          i.finalNoteEdit (widget_update i s)
        by_cases hexn : (review_block o i.finalizeClicked i.finalNoteEdit
            (widget_update i s)).uncaughtExn.isSome = true
        · rw [if_pos hexn]
          exact Or.inl ⟨hp1, hp2, hs3⟩
        · rw [if_neg hexn] at h3 ⊢
          by_cases hrc : i.resetClicked = true
          · rw [if_pos hrc] at h3
            exact absurd (show (0 : Nat) = 3 from h3) (by decide)
          · rw [if_neg hrc]
            exact Or.inl ⟨hp1, hp2, hs3⟩
      · rw [if_neg hst3] at h3
        by_cases hrc : i.resetClicked = true
        · rw [if_pos hrc] at h3
          exact absurd h3 (by decide)
        · rw [if_neg hrc] at h3
          have h3' : s.current_stage = 3 := h3
          exact absurd h3' hst3

/-- C4 (amended): in every reachable execution, REVIEW (stage 3) is held
only with a transcript and note free of the substring "Error" — the code's
working notion of a non-failure value (lines 340, 351).  This keeps every
provider failure string out of REVIEW except the "Sarvam Job Failed"
message, which lacks "Error" and therefore can be stored there (see the
counterexample). -/
theorem review_stage_error_free (s : Session) (hr : Reachable s)
    (h3 : s.current_stage = 3) :
    hasErrorSubstr s.raw_transcript = false ∧
      hasErrorSubstr s.soap_note = false := by
  induction hr with
  | init => exact absurd (show (0 : Nat) = 3 from h3) (by decide)
  | @step o i s0 _ ih =>
    rcases script_run_review_cases o i s0 h3 with ⟨ht, hn, hs⟩ | hclean
    · rw [ht, hn]
      exact ih hs
    · exact hclean

/-- Witness for the amended C4 at a concrete reachable REVIEW session. -/
theorem review_stage_error_free_witness :
    hasErrorSubstr reviewAfterSuccess.raw_transcript = false ∧
      hasErrorSubstr reviewAfterSuccess.soap_note = false :=
  review_stage_error_free reviewAfterSuccess
    (Reachable.step
      { oracleJobFailed with
        transcribeEnv :=
          { sarvamKeySet := true, writeOutcome := .ok,
            jobOutcome := .outputFound
              "patient has fever and took 650 mg paracetamol".toList } }
      defaultInputs
      (Reachable.step oracleJobFailed (captureInputs [1, 2, 3]) Reachable.init))
    (by decide)

/-- Counterexample to C5 as stated: after a successful delivery the stage
resets to SETUP and the audio bytes are cleared (lines 403–404), but the
raw transcript and the note are NOT cleared — they retain their pre-send
values. -/
theorem send_success_keeps_transcript_counterexample :
    (review_block oracleEmailOk true "edited note".toList reviewSession).successes ≠ [] ∧
      (review_block oracleEmailOk true "edited note".toList
        reviewSession).session.current_stage = 0 ∧
      (review_block oracleEmailOk true "edited note".toList
        reviewSession).session.audio_bytes = none ∧
      (review_block oracleEmailOk true "edited note".toList
        reviewSession).session.raw_transcript = "patient reports pain".toList ∧
      (review_block oracleEmailOk true "edited note".toList
        reviewSession).session.soap_note = reviewSession.soap_note := by
  exact ⟨by decide, by decide, by decide, by decide, by decide⟩

/-- C5 (amended): for every REVIEW session whose finalize-and-send delivery
reports success, the stage resets to SETUP (the code has no distinct SENT
state) and the stored audio bytes are cleared; the raw transcript and the
note, however, are left unchanged, not cleared. -/
theorem send_success_resets_stage_and_audio (o : Oracles) (fn : PyStr)
    (s : Session) (h3 : s.current_stage = 3)
    (hsucc : (review_block o true fn s).successes ≠ []) :
    (review_block o true fn s).session.current_stage = 0 ∧
      (review_block o true fn s).session.audio_bytes = none ∧
      (review_block o true fn s).session.raw_transcript = s.raw_transcript ∧
      (review_block o true fn s).session.soap_note = s.soap_note := by
  unfold review_block at hsucc ⊢
  rw [if_neg (by simp [h3]), if_neg (by decide)] at hsucc ⊢
  rcases hd : deliveryStatus o (buildMessage s.doctor_name o.now fn) s with e | status
  · simp only [hd] at hsucc
    exact absurd rfl hsucc
  · simp only [hd] at hsucc ⊢
    by_cases hs : hasSuccessSubstr status = true
    · rw [if_pos hs]
      exact ⟨rfl, rfl, rfl, rfl⟩
    · rw [if_neg hs] at hsucc
      exact absurd rfl hsucc

/-- Witness for the amended C5 at a concrete successful email delivery. -/
theorem send_success_resets_stage_and_audio_witness :
    (review_block oracleEmailOk true "edited note".toList
        reviewSession).session.current_stage = 0 ∧
      (review_block oracleEmailOk true "edited note".toList
        reviewSession).session.audio_bytes = none ∧
      (review_block oracleEmailOk true "edited note".toList
        reviewSession).session.raw_transcript = reviewSession.raw_transcript ∧
      (review_block oracleEmailOk true "edited note".toList
        reviewSession).session.soap_note = reviewSession.soap_note :=
  send_success_resets_stage_and_audio oracleEmailOk "edited note".toList
    reviewSession (by decide) (by decide)

/-- Counterexample to C6 as stated: on a transcription failure the stage
returns to SETUP and the failure is reported, but the audio bytes, raw
transcript and note are NOT reset — lines 341–343 only set
`current_stage = 0` and stop. -/
theorem processing_failure_keeps_fields_counterexample :
    (processing_block oracleNoKey processingSessionWithHistory).session.current_stage = 0 ∧
      (processing_block oracleNoKey processingSessionWithHistory).reports = [missingKeyMsg] ∧
      (processing_block oracleNoKey
        processingSessionWithHistory).session.audio_bytes = some [9, 9, 9] ∧
      (processing_block oracleNoKey
        processingSessionWithHistory).session.raw_transcript = "previous transcript".toList ∧
      (processing_block oracleNoKey
        processingSessionWithHistory).session.soap_note = "previous note".toList := by
  exact ⟨by decide, by decide, by decide, by decide, by decide⟩

/-- C6 (amended): for every PROCESSING failure the code detects — every
failure whose result string contains "Error", i.e. all transcription
failures except the "Sarvam Job Failed" message, and all synthesis
failures — the stage returns to SETUP and the doctorName, deliveryTarget
and contactAddress fields are untouched; but nothing is reset: the audio
bytes are retained, a detected transcription failure leaves the transcript
and note at their prior values, and a detected synthesis failure leaves the
transcript holding the new transcript and the note holding the synthesis
error string.  (The undetected "Sarvam Job Failed" transcription failure
does not return to SETUP at all: it overwrites the transcript and advances
to REVIEW, as established for C3/C4.) -/
theorem processing_detected_failure_returns_to_setup (o : Oracles)
    (s : Session) (b : List Nat) (h2 : s.current_stage = 2)
    (ha : s.audio_bytes = some b) :
    (hasErrorSubstr (transcribe_audio_sarvam_api o.transcribeEnv).result = true →
      (processing_block o s).session.current_stage = 0 ∧
        (processing_block o s).session.doctor_name = s.doctor_name ∧
        (processing_block o s).session.delivery_target = s.delivery_target ∧
        (processing_block o s).session.contact_input = s.contact_input ∧
        (processing_block o s).session.audio_bytes = s.audio_bytes ∧
        (processing_block o s).session.raw_transcript = s.raw_transcript ∧
        (processing_block o s).session.soap_note = s.soap_note) ∧
    (hasErrorSubstr (transcribe_audio_sarvam_api o.transcribeEnv).result = false →
      hasErrorSubstr (generate_soap_note_openai o.clientOk o.llm
        (transcribe_audio_sarvam_api o.transcribeEnv).result).output = true →
      (processing_block o s).session.current_stage = 0 ∧
        (processing_block o s).session.doctor_name = s.doctor_name ∧
        (processing_block o s).session.delivery_target = s.delivery_target ∧
        (processing_block o s).session.contact_input = s.contact_input ∧
        (processing_block o s).session.audio_bytes = s.audio_bytes ∧
        (processing_block o s).session.raw_transcript =
          (transcribe_audio_sarvam_api o.transcribeEnv).result ∧
        (processing_block o s).session.soap_note =
          (generate_soap_note_openai o.clientOk o.llm
            (transcribe_audio_sarvam_api o.transcribeEnv).result).output) := by
  unfold processing_block
  rw [if_neg (by simp [h2])]
  simp only [ha]
  constructor
  · intro hr
    rw [if_pos hr]
    exact ⟨rfl, rfl, rfl, rfl, rfl, rfl, rfl⟩
  · intro hr hn
    rw [if_neg (by simp [hr]), if_pos hn]
    exact ⟨rfl, rfl, rfl, rfl, rfl, rfl, rfl⟩

/-- Witness for the amended C6: the missing-key transcription failure is
detected (its message contains "Error"), the stage returns to SETUP, and
every other session field — audio, transcript, note included — keeps its
prior value. -/
theorem processing_detected_failure_returns_to_setup_witness :
    (processing_block oracleNoKey
        processingSessionWithHistory).session.current_stage = 0 ∧
      (processing_block oracleNoKey
        processingSessionWithHistory).session.doctor_name
        = processingSessionWithHistory.doctor_name ∧
      (processing_block oracleNoKey
        processingSessionWithHistory).session.delivery_target
        = processingSessionWithHistory.delivery_target ∧
      (processing_block oracleNoKey
        processingSessionWithHistory).session.contact_input
        = processingSessionWithHistory.contact_input ∧
      (processing_block oracleNoKey
        processingSessionWithHistory).session.audio_bytes
        = processingSessionWithHistory.audio_bytes ∧
      (processing_block oracleNoKey
        processingSessionWithHistory).session.raw_transcript
        = processingSessionWithHistory.raw_transcript ∧
      (processing_block oracleNoKey
        processingSessionWithHistory).session.soap_note
        = processingSessionWithHistory.soap_note :=
  (processing_detected_failure_returns_to_setup oracleNoKey
    processingSessionWithHistory [9, 9, 9] (by decide) rfl).1 (by decide)

/-- Counterexample to C7 as stated: a failed delivery call (the Twilio
client raised) whose failure string contains "Success!" is treated as a
success by the substring check at line 401: the stage does NOT remain
REVIEW (it resets to 0), the audio is cleared, and no error is surfaced —
the failure string is shown as a success message instead. -/
theorem delivery_failure_mistaken_for_success_counterexample :
    (review_block oracleTwilioRaiseSuccessText true "edited".toList
        reviewSessionWhatsApp).session.current_stage = 0 ∧
      (review_block oracleTwilioRaiseSuccessText true "edited".toList
        reviewSessionWhatsApp).reports = [] ∧
      (review_block oracleTwilioRaiseSuccessText true "edited".toList
        reviewSessionWhatsApp).successes =
        [send_whatsapp_note oracleTwilioRaiseSuccessText.twilioEnv
          oracleTwilioRaiseSuccessText.twilioOutcome
          (buildMessage reviewSessionWhatsApp.doctor_name
            oracleTwilioRaiseSuccessText.now "edited".toList)
          reviewSessionWhatsApp.contact_input] := by
  exact ⟨by decide, by decide, by decide⟩

/-- C7 (amended): for every REVIEW session whose delivery call returns a
failure string that does not contain "Success!" — which covers the
credentials-missing failures and every exception whose text lacks that
substring — the session is left fully unchanged (stage stays REVIEW, note
untouched and still editable) and the failure string is surfaced as the
only error report. -/
theorem delivery_failure_stays_in_review (o : Oracles) (fn : PyStr)
    (s : Session) (h3 : s.current_stage = 3) (status : PyStr)
    (hd : deliveryStatus o (buildMessage s.doctor_name o.now fn) s = .ok status)
    (hf : hasSuccessSubstr status = false) :
    (review_block o true fn s).session = s ∧
      (review_block o true fn s).reports = [status] := by
  unfold review_block
  rw [if_neg (by simp [h3]), if_neg (by decide)]
  simp only [hd]
  rw [if_neg (by simp [hf])]
  exact ⟨rfl, rfl⟩

/-- Witness for the amended C7: email delivery fails because no SMTP
credentials are configured; the session is unchanged and the failure
surfaced. -/
theorem delivery_failure_stays_in_review_witness :
    (review_block oracleJobFailed true "edited".toList reviewSession).session
        = reviewSession ∧
      (review_block oracleJobFailed true "edited".toList reviewSession).reports
        = ["Email Failed: SMTP credentials not set up.".toList] :=
  delivery_failure_stays_in_review oracleJobFailed "edited".toList
    reviewSession (by decide)
    "Email Failed: SMTP credentials not set up.".toList
    rfl (by decide)

/-- Counterexample to C8 as stated: a 500-byte audio blob is NOT rejected —
the capture block at lines 316–322 performs no minimum-size check; the
process click moves the stage to PROCESSING with no error reported, and the
subsequent PROCESSING run invokes the transcription call on it. -/
theorem small_audio_not_rejected_counterexample :
    (script_run oracleJobFailed (captureInputs (List.replicate 500 0))
        initSession).session.current_stage = 2 ∧
      (script_run oracleJobFailed (captureInputs (List.replicate 500 0))
        initSession).reports = [] ∧
      (processing_block oracleJobFailed
        (script_run oracleJobFailed (captureInputs (List.replicate 500 0))
          initSession).session).transcribeCalled = true := by
  exact ⟨by decide, by decide, by decide⟩

/-- C8 (amended): the stage machine performs no minimum-size sanity check
on audio: every blob, of any size, that is present at SETUP is stored, the
process action advances the stage to PROCESSING without any error, and the
following PROCESSING run always invokes the transcription call. -/
theorem any_audio_accepted (b : List Nat) (o o2 : Oracles) (i : RunInputs)
    (s : Session) (h0 : s.current_stage = 0) (ha : i.audioData = some b)
    (hp : i.processClicked = true) :
    (script_run o i s).session.current_stage = 2 ∧
      (script_run o i s).session.audio_bytes = some b ∧
      (script_run o i s).reports = [] ∧
      (processing_block o2 (script_run o i s).session).transcribeCalled = true := by
  unfold script_run
  rw [if_pos (by exact ⟨by rw [ha]; rfl, by rw [widget_update_stage]; exact h0⟩),
    if_pos hp]
  refine ⟨rfl, by simp [idleTrace, ha], rfl, ?_⟩
  unfold processing_block
  rw [if_neg (by simp [idleTrace])]
  simp only [idleTrace, ha]
  by_cases hr : hasErrorSubstr (transcribe_audio_sarvam_api o2.transcribeEnv).result = true
  · rw [if_pos hr]
  · rw [if_neg hr]
    by_cases hn : hasErrorSubstr (generate_soap_note_openai o2.clientOk o2.llm
        (transcribe_audio_sarvam_api o2.transcribeEnv).result).output = true
    · rw [if_pos hn]
    · rw [if_neg hn]

/-- Witness for the amended C8 at a tiny concrete blob. -/
theorem any_audio_accepted_witness :
    (script_run oracleJobFailed (captureInputs [42]) initSession).session.current_stage = 2 ∧
      (script_run oracleJobFailed (captureInputs [42])
        initSession).session.audio_bytes = some [42] ∧
      (script_run oracleJobFailed (captureInputs [42]) initSession).reports = [] ∧
      (processing_block oracleNoKey
        (script_run oracleJobFailed (captureInputs [42])
          initSession).session).transcribeCalled = true :=
  any_audio_accepted [42] oracleJobFailed oracleNoKey (captureInputs [42])
    initSession (by decide) rfl rfl

/-- Counterexample to C9 as stated: with `SMTP_PORT` set to the malformed
value "abc", `int(os.environ.get('SMTP_PORT', 587))` at line 223 runs
outside every `try` block, so `send_email_note` raises an uncaught
`ValueError` instead of returning a user-facing result string. -/
theorem email_malformed_port_uncaught_counterexample :
    send_email_note
        { smtpServer := some "smtp.clinic.example".toList
          smtpPort := some "abc".toList
          senderEmail := some "scribe@clinic.example".toList
          senderPassword := some "app-password".toList }
        .ok "body".toList "dr@clinic.example".toList
      = .error ("ValueError: invalid literal for int() with base 10: ".toList ++
          "abc".toList) := by
  rfl

/-- C9 (amended): each boundary operation returns a user-facing result
string on every input and environment — `transcribe_audio_sarvam_api`,
`generate_soap_note_openai` and `send_whatsapp_note` are total
string-returning functions (every Python path of each returns a string) —
except that `send_email_note` only does so when `SMTP_PORT`, if set, parses
as an integer; a malformed port raises an uncaught `ValueError`. -/
theorem email_returns_string_when_port_parses (eenv : EmailEnv)
    (eout : SmtpOutcome) (c r : PyStr)
    (hport : (pyParseInt (eenv.smtpPort.getD "587".toList)).isSome = true) :
    ∃ msg : PyStr, send_email_note eenv eout c r = .ok msg := by
  unfold send_email_note
  obtain ⟨n, hn⟩ := Option.isSome_iff_exists.mp hport
  rw [hn]
  by_cases hc : (!(truthy eenv.smtpServer && truthy eenv.senderEmail &&
      truthy eenv.senderPassword)) = true
  · rw [if_pos hc]
    exact ⟨_, rfl⟩
  · rw [if_neg hc]
    rcases eout with _ | m
    · exact ⟨_, rfl⟩
    · exact ⟨_, rfl⟩

/-- Witness for the amended C9: with no SMTP configuration at all the email
sender still returns the credentials-missing result string. -/
theorem email_returns_string_when_port_parses_witness :
    ∃ msg : PyStr,
      send_email_note ⟨none, none, none, none⟩ .ok "body".toList
        "dr@clinic.example".toList = .ok msg :=
  email_returns_string_when_port_parses ⟨none, none, none, none⟩ .ok
    "body".toList "dr@clinic.example".toList (by decide)

/-- Counterexample to C10 as stated: if writing the audio bytes to the
named temporary file raises after the file was created (lines 56–60), the
function returns the file-system error string without entering the
`finally` block of the job phase, and the temporary audio file outlives the
call. -/
theorem tmpfile_survives_write_failure_counterexample :
    (transcribe_audio_sarvam_api
        ⟨true, .raiseAfterCreate "disk full".toList, .outputMissing⟩).fs.tmpAudioFileExists
        = true ∧
      (transcribe_audio_sarvam_api
        ⟨true, .raiseAfterCreate "disk full".toList, .outputMissing⟩).result
        = fsErrorMsg "disk full".toList := by
  exact ⟨rfl, rfl⟩

/-- C10 (amended): on every exit path except a failure while writing the
already-created temporary audio file, no temporary storage outlives the
call: the missing-key and creation-failure paths never create anything, and
every path through the job phase — success, job failure, missing output, or
SDK exception — runs the `finally` cleanup that removes both the temporary
audio file and the output directory. -/
theorem transcribe_cleanup_on_nonwrite_failure_paths (env : TranscribeEnv)
    (hw : ∀ m : PyStr, env.writeOutcome ≠ .raiseAfterCreate m) :
    (transcribe_audio_sarvam_api env).fs = ⟨false, false⟩ := by
  unfold transcribe_audio_sarvam_api
  by_cases hk : env.sarvamKeySet = true
  · rw [if_neg (by simp [hk])]
    rcases hwo : env.writeOutcome with _ | m | m
    · rcases env.jobOutcome with id | t | _ | ⟨dir, m2⟩
      · rfl
      · rfl
      · rfl
      · cases dir <;> rfl
    · exact absurd hwo (hw m)
    · rfl
  · rw [if_pos (by simp [Bool.not_eq_true] at hk; simp [hk])]

/-- Witness for the amended C10 on a successful transcription. -/
theorem transcribe_cleanup_witness :
    (transcribe_audio_sarvam_api
        ⟨true, .ok, .outputFound "patient has fever".toList⟩).fs
      = ⟨false, false⟩ :=
  transcribe_cleanup_on_nonwrite_failure_paths
    ⟨true, .ok, .outputFound "patient has fever".toList⟩
    (fun m h => WriteOutcome.noConfusion h)
